import Mathlib

/-!
Shallow embedding of `src/pondside/telemetry.py` (the Pondside SDK telemetry
module) and of the slice of the external OpenTelemetry library state that it
mutates.

The module has two functions, `init(service_name)` and `get_tracer(name)`,
and one module-level boolean `_initialized`.  `init` reads the environment
variable `OTEL_EXPORTER_OTLP_ENDPOINT`; when it is set and non-empty it
constructs a `Resource`, an OTLP span exporter at `endpoint + "/v1/traces"`,
a `SpanLimits` record with six fixed constants, a `TracerProvider`, an OTLP
log exporter at `endpoint + "/v1/logs"`, a `LoggerProvider`, registers both
providers in the external library's process-wide registries, and attaches a
`LoggingHandler` (at `logging.DEBUG`) to the Python root logger.

The state we track is the module flag together with the external globals the
module writes: the global tracer provider, the global logger provider, and
the root logger's handler list.  Each external constructor is embedded as a
record of the arguments the module passes to it.
-/

namespace Pondside

/-- `logging.DEBUG` in the Python standard library. -/
def logging_DEBUG : Nat := 10

/-- Embeds `opentelemetry.sdk.trace.SpanLimits` restricted to the keyword
arguments the module passes. -/
structure SpanLimits where
  max_attributes : Nat
  max_attribute_length : Nat
  max_events : Nat
  max_links : Nat
  max_event_attributes : Nat
  max_link_attributes : Nat
deriving DecidableEq, Repr

/-- Embeds `opentelemetry.sdk.resources.Resource` restricted to the single
attribute the module sets: `Resource.create({SERVICE_NAME: service_name})`. -/
structure Resource where
  service_name : String
deriving DecidableEq, Repr

/-- Embeds `OTLPSpanExporter(endpoint=...)`: the target URL it was
constructed with. -/
structure OTLPSpanExporter where
  endpoint : String
deriving DecidableEq, Repr

/-- Embeds `OTLPLogExporter(endpoint=...)`: the target URL it was
constructed with. -/
structure OTLPLogExporter where
  endpoint : String
deriving DecidableEq, Repr

/-- Embeds `opentelemetry.sdk.trace.TracerProvider`: its resource, its span
limits, and the exporters of the span processors added to it
(`add_span_processor(BatchSpanProcessor(exporter))`). -/
structure TracerProvider where
  resource : Resource
  span_limits : SpanLimits
  span_processors : List OTLPSpanExporter
deriving DecidableEq, Repr

/-- Embeds `opentelemetry.sdk._logs.LoggerProvider`: its resource and the
exporters of the log record processors added to it
(`add_log_record_processor(BatchLogRecordProcessor(exporter))`). -/
structure LoggerProvider where
  resource : Resource
  log_processors : List OTLPLogExporter
deriving DecidableEq, Repr

/-- Embeds `opentelemetry.sdk._logs.LoggingHandler(level=..., logger_provider=...)`. -/
structure LoggingHandler where
  level : Nat
  logger_provider : LoggerProvider
deriving DecidableEq, Repr

/-- The process-wide state the module reads and writes: the module-level
`_initialized` flag, the external library's global tracer provider
(`opentelemetry.trace.set_tracer_provider`), its global logger provider
(`opentelemetry._logs.set_logger_provider`), and the Python root logger's
handler list (`logging.getLogger().addHandler`). -/
structure TelemetryState where
  initialized : Bool
  tracer_provider : Option TracerProvider
  logger_provider : Option LoggerProvider
  root_handlers : List LoggingHandler
deriving DecidableEq, Repr

/-- The state at process start: flag false, no providers registered, no
handlers on the root logger. -/
def initialState : TelemetryState :=
  { initialized := false
    tracer_provider := none
    logger_provider := none
    root_handlers := [] }

/-- The `SpanLimits(...)` record constructed in `init` (lines 61-68 of
`telemetry.py`), with its six fixed keyword arguments. -/
def span_limits : SpanLimits :=
  { max_attributes := 100000
    max_attribute_length := 100000
    max_events := 10000
    max_links := 1000
    max_event_attributes := 10000
    max_link_attributes := 1000 }

/-- Embeds `init(service_name)` from `telemetry.py`.  The environment is
passed explicitly: `env` is the value of `OTEL_EXPORTER_OTLP_ENDPOINT`
(`os.environ.get` returns `None` when absent).  Python's `if not endpoint`
is falsy both for `None` and for the empty string. -/
def init (service_name : String) (env : Option String) (s : TelemetryState) :
    TelemetryState :=
  if s.initialized then s
  else
    match env with
    | none => { s with initialized := true }
    | some endpoint =>
      if endpoint = "" then { s with initialized := true }
      else
        let resource : Resource := { service_name := service_name }
        let trace_exporter : OTLPSpanExporter :=
          { endpoint := endpoint ++ "/v1/traces" }
        let tracer_provider : TracerProvider :=
          { resource := resource
            span_limits := span_limits
            span_processors := [trace_exporter] }
        let log_exporter : OTLPLogExporter :=
          { endpoint := endpoint ++ "/v1/logs" }
        let logger_provider : LoggerProvider :=
          { resource := resource
            log_processors := [log_exporter] }
        let handler : LoggingHandler :=
          { level := logging_DEBUG, logger_provider := logger_provider }
        { initialized := true
          tracer_provider := some tracer_provider
          logger_provider := some logger_provider
          root_handlers := s.root_handlers ++ [handler] }

/-- Embeds the handle returned by `opentelemetry.trace.get_tracer`. -/
structure Tracer where
  provider : Option TracerProvider
  name : String
deriving DecidableEq, Repr

/-- Embeds the external library's `opentelemetry.trace.get_tracer(name)`:
a lookup against the global tracer registry by name. -/
def trace_get_tracer (s : TelemetryState) (name : String) : Tracer :=
  { provider := s.tracer_provider, name := name }

/-- Embeds `get_tracer(name="pondside")` from `telemetry.py`: it returns
`trace.get_tracer(name)` and touches no state, so it is embedded as a
state-passing function returning the tracer and the (unchanged) state. -/
def get_tracer (s : TelemetryState) (name : optParam String "pondside") :
    Tracer × TelemetryState :=
  (trace_get_tracer s name, s)

/-- An observable operation of the module: a call to `init` (with the
environment it sees) or a call to `get_tracer`. -/
inductive Op where
  | opInit (service_name : String) (env : Option String)
  | opGetTracer (name : String)
deriving DecidableEq, Repr

/-- The state transition of one operation. -/
def step (s : TelemetryState) (op : Op) : TelemetryState :=
  match op with
  | .opInit service_name env => init service_name env s
  | .opGetTracer name => (get_tracer s name).2

/-- Run a sequence of operations from a state. -/
def run (s : TelemetryState) (ops : List Op) : TelemetryState :=
  ops.foldl step s

/-- The external calls made on the configured path of `init`, in source
order (`telemetry.py` lines 55-84).  Any of them may raise: the module has
no `try`/`except`, so a raise propagates and aborts `init` at that point. -/
inductive ExtStep where
  | resource_create
  | span_exporter_ctor
  | span_limits_ctor
  | tracer_provider_ctor
  | add_span_processor
  | set_tracer_provider
  | log_exporter_ctor
  | logger_provider_ctor
  | add_log_record_processor
  | set_logger_provider
  | logging_handler_ctor
  | add_handler
deriving DecidableEq, Repr

/-- The source order of the external calls on the configured path
(`telemetry.py` lines 55-84).  `BatchSpanProcessor` construction is folded
into `add_span_processor`, and `BatchLogRecordProcessor` construction into
`add_log_record_processor`, since each pair is a single expression in the
source. -/
def extOrder : List ExtStep :=
  [ .resource_create
  , .span_exporter_ctor
  , .span_limits_ctor
  , .tracer_provider_ctor
  , .add_span_processor
  , .set_tracer_provider
  , .log_exporter_ctor
  , .logger_provider_ctor
  , .add_log_record_processor
  , .set_logger_provider
  , .logging_handler_ctor
  , .add_handler ]

/-- Under a failure oracle `ok` (which external calls succeed), the first
external call of the configured path that raises, if any. -/
def firstFail (ok : ExtStep → Bool) : Option ExtStep :=
  extOrder.find? (fun st => !ok st)

/-- The tracer provider `init` builds: the resource for the service name,
the fixed span limits, one batch processor over the span exporter at
`endpoint ++ "/v1/traces"`. -/
def builtTracerProvider (service_name endpoint : String) : TracerProvider :=
  { resource := { service_name := service_name }
    span_limits := span_limits
    span_processors := [{ endpoint := endpoint ++ "/v1/traces" }] }

/-- The logger provider `init` builds: the resource for the service name,
one batch processor over the log exporter at `endpoint ++ "/v1/logs"`. -/
def builtLoggerProvider (service_name endpoint : String) : LoggerProvider :=
  { resource := { service_name := service_name }
    log_processors := [{ endpoint := endpoint ++ "/v1/logs" }] }

/-- The state visible after the external call `st` raises on the configured
path, by source order: calls up to and including `set_tracer_provider` raise
before any global write; from `log_exporter_ctor` to `set_logger_provider`
the tracer provider is already registered; from `logging_handler_ctor` on,
both providers are registered but the handler has not been attached.  The
`initialized` flag is untouched in every case, since its assignment is the
last statement of `init`. -/
def stateAtRaise (service_name endpoint : String) (s : TelemetryState) :
    ExtStep → TelemetryState
  | .resource_create => s
  | .span_exporter_ctor => s
  | .span_limits_ctor => s
  | .tracer_provider_ctor => s
  | .add_span_processor => s
  | .set_tracer_provider => s
  | .log_exporter_ctor =>
      { s with tracer_provider := some (builtTracerProvider service_name endpoint) }
  | .logger_provider_ctor =>
      { s with tracer_provider := some (builtTracerProvider service_name endpoint) }
  | .add_log_record_processor =>
      { s with tracer_provider := some (builtTracerProvider service_name endpoint) }
  | .set_logger_provider =>
      { s with tracer_provider := some (builtTracerProvider service_name endpoint) }
  | .logging_handler_ctor =>
      { s with tracer_provider := some (builtTracerProvider service_name endpoint)
               logger_provider := some (builtLoggerProvider service_name endpoint) }
  | .add_handler =>
      { s with tracer_provider := some (builtTracerProvider service_name endpoint)
               logger_provider := some (builtLoggerProvider service_name endpoint) }

/-- `init` under a failure oracle: `ok st` says whether the external call
`st` succeeds.  The first failing call aborts `init` (the module has no
`try`/`except`, so the exception propagates) leaving the state as mutated
so far; the second component records whether a call raised.  When every
call succeeds this is exactly `init` (see `initE_all_ok`). -/
def initE (ok : ExtStep → Bool) (service_name : String) (env : Option String)
    (s : TelemetryState) : TelemetryState × Bool :=
  if s.initialized then (s, false)
  else
    match env with
    | none => ({ s with initialized := true }, false)
    | some endpoint =>
      if endpoint = "" then ({ s with initialized := true }, false)
      else
        match firstFail ok with
        | some st => (stateAtRaise service_name endpoint s st, true)
        | none => (init service_name env s, false)

/-! ## Helper lemmas -/

/-- Every call to `init` leaves the flag true: either it was already true
(early return) or every branch of the body ends by setting it. -/
theorem init_flag (sn : String) (env : Option String) (s : TelemetryState) :
    (init sn env s).initialized = true := by
  unfold init
  split
  · assumption
  · rcases env with _ | e
    · rfl
    · dsimp only
      split <;> rfl

/-- `init` on an already-initialized state is the identity. -/
theorem init_of_initialized (sn : String) (env : Option String)
    (s : TelemetryState) (h : s.initialized = true) : init sn env s = s := by
  unfold init
  split
  · rfl
  · next hc => exact absurd h hc

/-- With the all-true oracle, `initE` performs exactly `init` and reports no
raise. -/
theorem initE_all_ok (sn : String) (env : Option String) (s : TelemetryState) :
    initE (fun _ => true) sn env s = (init sn env s, false) := by
  rcases s with ⟨b, tp, lp, rh⟩
  cases b
  · rcases env with _ | e
    · rfl
    · by_cases he : e = ""
      · subst he; rfl
      · simp only [initE, init, he]
        rfl
  · rfl

/-- On the configured path (flag unset, endpoint non-empty) `init` produces
exactly the fully configured state: flag set, both providers registered,
one handler appended. -/
theorem init_configured (sn e : String) (s : TelemetryState)
    (hs : s.initialized = false) (he : ¬ e = "") :
    init sn (some e) s =
      { initialized := true
        tracer_provider := some (builtTracerProvider sn e)
        logger_provider := some (builtLoggerProvider sn e)
        root_handlers := s.root_handlers ++
          [{ level := logging_DEBUG
             logger_provider := builtLoggerProvider sn e }] } := by
  rcases s with ⟨b, tp, lp, rh⟩
  cases b
  · simp only [init, he]
    rfl
  · exact Bool.noConfusion hs

/-- A raise on the configured path leaves the `initialized` flag exactly as
it was: `stateAtRaise` never touches it. -/
theorem stateAtRaise_initialized (sn e : String) (s : TelemetryState)
    (st : ExtStep) : (stateAtRaise sn e s st).initialized = s.initialized := by
  cases st <;> rfl

/-- When the endpoint variable is absent, `init` only sets the flag. -/
theorem init_none_eq (sn : String) (s : TelemetryState) :
    init sn none s = { s with initialized := true } := by
  rcases s with ⟨b, tp, lp, rh⟩
  cases b <;> rfl

/-- When the endpoint variable is the empty string, `init` only sets the
flag (Python's `if not endpoint` is falsy on `""`). -/
theorem init_empty_eq (sn : String) (s : TelemetryState) :
    init sn (some "") s = { s with initialized := true } := by
  rcases s with ⟨b, tp, lp, rh⟩
  cases b <;> rfl

/-! ## Claim theorems -/

/-- Claim C1: `init` is idempotent.  After one call to `init` has returned (with
any service name and any environment), the flag is true and any subsequent
call (again with any service name and any environment) returns the state
unchanged: it registers nothing, constructs nothing and attaches nothing. -/
theorem init_idempotent (sn1 sn2 : String) (env1 env2 : Option String)
    (s : TelemetryState) :
    (init sn1 env1 s).initialized = true ∧
    init sn2 env2 (init sn1 env1 s) = init sn1 env1 s :=
  ⟨init_flag sn1 env1 s,
   init_of_initialized sn2 env2 _ (init_flag sn1 env1 s)⟩

/-- Claim C2: when the endpoint variable is absent (`os.environ.get` returns
`None`), `init` sets the flag and does nothing else: the tracer registry,
the logger registry and the root logger's handler list are unchanged, and no
external call is reached, so under every failure oracle the call raises
nothing. -/
theorem init_absent_endpoint (ok : ExtStep → Bool) (sn : String)
    (s : TelemetryState) :
    (init sn none s).initialized = true ∧
    (init sn none s).tracer_provider = s.tracer_provider ∧
    (init sn none s).logger_provider = s.logger_provider ∧
    (init sn none s).root_handlers = s.root_handlers ∧
    (initE ok sn none s).2 = false := by
  rcases s with ⟨b, tp, lp, rh⟩
  cases b <;> exact ⟨rfl, rfl, rfl, rfl, rfl⟩

/-- Claim C3: the initialization flag is never reset.  From any state in which
the flag is set, no sequence of `init` and `get_tracer` calls ever makes it
false again. -/
theorem initialized_never_reset (s : TelemetryState) (ops : List Op)
    (h : s.initialized = true) : (run s ops).initialized = true := by
  induction ops generalizing s with
  | nil => exact h
  | cons op rest ih =>
    cases op with
    | opInit sn env => exact ih (init sn env s) (init_flag sn env s)
    | opGetTracer n => exact ih s h

/-- Witness for C3: a concrete initialized state and a concrete operation
sequence that includes further `init` and `get_tracer` calls. -/
theorem initialized_never_reset_witness :
    (TelemetryState.mk true none none []).initialized = true ∧
    (run (TelemetryState.mk true none none [])
      [ Op.opInit "svc" (some "http://collector:4318")
      , Op.opGetTracer "t"
      , Op.opInit "other" none ]).initialized = true :=
  ⟨rfl, initialized_never_reset (TelemetryState.mk true none none []) _ rfl⟩

/-- Claim C4: on the configured path (flag unset, endpoint `e` non-empty), the
span exporter is constructed at exactly `e ++ "/v1/traces"` and the log
exporter at exactly `e ++ "/v1/logs"`, each being the sole processor of its
provider. -/
theorem init_exporter_endpoints (sn e : String) (s : TelemetryState)
    (hs : s.initialized = false) (he : ¬ e = "") :
    ((init sn (some e) s).tracer_provider).map
        (fun p => p.span_processors.map OTLPSpanExporter.endpoint) =
      some [e ++ "/v1/traces"] ∧
    ((init sn (some e) s).logger_provider).map
        (fun p => p.log_processors.map OTLPLogExporter.endpoint) =
      some [e ++ "/v1/logs"] := by
  rw [init_configured sn e s hs he]
  exact ⟨rfl, rfl⟩

/-- Witness for C4 at a concrete service name, endpoint and initial state. -/
theorem init_exporter_endpoints_witness :
    (initialState.initialized = false ∧ ¬ "http://collector:4318" = "") ∧
    ((init "svc" (some "http://collector:4318") initialState).tracer_provider).map
        (fun p => p.span_processors.map OTLPSpanExporter.endpoint) =
      some ["http://collector:4318" ++ "/v1/traces"] ∧
    ((init "svc" (some "http://collector:4318") initialState).logger_provider).map
        (fun p => p.log_processors.map OTLPLogExporter.endpoint) =
      some ["http://collector:4318" ++ "/v1/logs"] :=
  ⟨⟨rfl, by decide⟩,
   init_exporter_endpoints "svc" "http://collector:4318" initialState rfl (by decide)⟩

/-- Claim C5: on the configured path, the tracer provider carries exactly the six
fixed span-limit constants; the statement quantifies over the service name,
the endpoint and the prior state, so the limits depend on none of them. -/
theorem init_span_limit_constants (sn e : String) (s : TelemetryState)
    (hs : s.initialized = false) (he : ¬ e = "") :
    ((init sn (some e) s).tracer_provider).map TracerProvider.span_limits =
      some { max_attributes := 100000
             max_attribute_length := 100000
             max_events := 10000
             max_links := 1000
             max_event_attributes := 10000
             max_link_attributes := 1000 } := by
  rw [init_configured sn e s hs he]
  rfl

/-- Witness for C5 at a concrete service name, endpoint and initial state. -/
theorem init_span_limit_constants_witness :
    (initialState.initialized = false ∧ ¬ "http://parallax:4318" = "") ∧
    ((init "pond" (some "http://parallax:4318") initialState).tracer_provider).map
        TracerProvider.span_limits =
      some { max_attributes := 100000
             max_attribute_length := 100000
             max_events := 10000
             max_links := 1000
             max_event_attributes := 10000
             max_link_attributes := 1000 } :=
  ⟨⟨rfl, by decide⟩,
   init_span_limit_constants "pond" "http://parallax:4318" initialState rfl (by decide)⟩

/-- Claim C6: `get_tracer` is a pure delegation to the external registry lookup:
its result is exactly `trace.get_tracer name`, the state comes back
unchanged, and the omitted-argument form is the call with the default
constant `"pondside"`. -/
theorem get_tracer_delegates (s : TelemetryState) (n : String) :
    get_tracer s n = (trace_get_tracer s n, s) ∧
    get_tracer s = (trace_get_tracer s "pondside", s) :=
  ⟨rfl, rfl⟩

/-- Claim C7: on the configured path a single resource record carrying the service
name is built, and that same record is the resource of both the tracer
provider and the logger provider. -/
theorem init_shared_resource (sn e : String) (s : TelemetryState)
    (hs : s.initialized = false) (he : ¬ e = "") :
    ∃ r : Resource,
      ((init sn (some e) s).tracer_provider).map TracerProvider.resource =
        some r ∧
      ((init sn (some e) s).logger_provider).map LoggerProvider.resource =
        some r ∧
      r.service_name = sn := by
  refine ⟨{ service_name := sn }, ?_, ?_, rfl⟩ <;>
    (rw [init_configured sn e s hs he]; rfl)

/-- Witness for C7 at a concrete service name, endpoint and initial state. -/
theorem init_shared_resource_witness :
    (initialState.initialized = false ∧ ¬ "http://otel:4318" = "") ∧
    ∃ r : Resource,
      ((init "heron" (some "http://otel:4318") initialState).tracer_provider).map
          TracerProvider.resource = some r ∧
      ((init "heron" (some "http://otel:4318") initialState).logger_provider).map
          LoggerProvider.resource = some r ∧
      r.service_name = "heron" :=
  ⟨⟨rfl, by decide⟩,
   init_shared_resource "heron" "http://otel:4318" initialState rfl (by decide)⟩

/-- Claim C8: on the configured path exactly one `LoggingHandler` is appended to
the root logger's handler list, at level `logging.DEBUG` (= 10), wired to
the logger provider that was just registered; on every other path (already
initialized, endpoint absent, endpoint empty) the handler list is
unchanged. -/
theorem init_logging_handler (sn e : String) (s : TelemetryState)
    (hs : s.initialized = false) (he : ¬ e = "") :
    (∃ lp : LoggerProvider,
      (init sn (some e) s).logger_provider = some lp ∧
      (init sn (some e) s).root_handlers =
        s.root_handlers ++ [{ level := logging_DEBUG, logger_provider := lp }]) ∧
    logging_DEBUG = 10 ∧
    (∀ (sn2 : String) (env2 : Option String) (s2 : TelemetryState),
      s2.initialized = true →
        (init sn2 env2 s2).root_handlers = s2.root_handlers) ∧
    (∀ (sn2 : String) (s2 : TelemetryState),
      (init sn2 none s2).root_handlers = s2.root_handlers) ∧
    (∀ (sn2 : String) (s2 : TelemetryState),
      (init sn2 (some "") s2).root_handlers = s2.root_handlers) := by
  refine ⟨⟨builtLoggerProvider sn e, ?_, ?_⟩, rfl, ?_, ?_, ?_⟩
  · rw [init_configured sn e s hs he]
  · rw [init_configured sn e s hs he]
  · intro sn2 env2 s2 h2
    rw [init_of_initialized sn2 env2 s2 h2]
  · intro sn2 s2
    rw [init_none_eq sn2 s2]
  · intro sn2 s2
    rw [init_empty_eq sn2 s2]

/-- Witness for C8 at a concrete service name, endpoint and initial state. -/
theorem init_logging_handler_witness :
    (initialState.initialized = false ∧ ¬ "http://duck:4318" = "") ∧
    (∃ lp : LoggerProvider,
      (init "mallard" (some "http://duck:4318") initialState).logger_provider =
        some lp ∧
      (init "mallard" (some "http://duck:4318") initialState).root_handlers =
        initialState.root_handlers ++
          [{ level := logging_DEBUG, logger_provider := lp }]) :=
  ⟨⟨rfl, by decide⟩,
   (init_logging_handler "mallard" "http://duck:4318" initialState rfl
     (by decide)).1⟩

/-- Claim C9: an endpoint variable set to the empty string behaves exactly like an
absent one: `init` marks initialization complete and registers nothing,
leaving both provider registries and the root handlers unchanged. -/
theorem init_empty_endpoint (sn : String) (s : TelemetryState) :
    init sn (some "") s = init sn none s ∧
    (init sn (some "") s).initialized = true ∧
    (init sn (some "") s).tracer_provider = s.tracer_provider ∧
    (init sn (some "") s).logger_provider = s.logger_provider ∧
    (init sn (some "") s).root_handlers = s.root_handlers := by
  rcases s with ⟨b, tp, lp, rh⟩
  cases b <;> exact ⟨rfl, rfl, rfl, rfl, rfl⟩

/-- Claim C10: the flag assignment is the last statement of the configured path.
If any external call raises, the flag is left exactly as it was (so still
false on a first call), and a subsequent `init` call in which every external
call succeeds is not a no-op: it performs the full configuration, setting
the flag and registering both providers. -/
theorem initE_flag_assigned_last (ok : ExtStep → Bool) (sn : String)
    (env : Option String) (s : TelemetryState)
    (hraise : (initE ok sn env s).2 = true) :
    (initE ok sn env s).1.initialized = false ∧
    initE (fun _ => true) sn env (initE ok sn env s).1 =
      (init sn env (initE ok sn env s).1, false) ∧
    (init sn env (initE ok sn env s).1).initialized = true ∧
    ∃ e : String,
      env = some e ∧ ¬ e = "" ∧
      (init sn env (initE ok sn env s).1).tracer_provider =
        some (builtTracerProvider sn e) ∧
      (init sn env (initE ok sn env s).1).logger_provider =
        some (builtLoggerProvider sn e) := by
  rcases s with ⟨b, tp, lp, rh⟩
  cases b
  · rcases env with _ | e
    · exact Bool.noConfusion hraise
    · by_cases he : e = ""
      · subst he
        exact Bool.noConfusion hraise
      · have hE : ∃ st, initE ok sn (some e) (TelemetryState.mk false tp lp rh) =
            (stateAtRaise sn e (TelemetryState.mk false tp lp rh) st, true) := by
          rcases hff : firstFail ok with _ | st
          · exfalso
            simp only [initE, he, hff] at hraise
            exact Bool.noConfusion hraise
          · refine ⟨st, ?_⟩
            simp only [initE, he, hff]
            rfl
        rcases hE with ⟨st, hE⟩
        rw [hE]
        refine ⟨stateAtRaise_initialized sn e _ st,
          initE_all_ok sn (some e) _, init_flag sn (some e) _,
          e, rfl, he, ?_, ?_⟩ <;>
          rw [init_configured sn e _ (stateAtRaise_initialized sn e _ st) he]
  · exact Bool.noConfusion hraise

/-- A failure oracle under which every external call succeeds except the
registration of the logger provider. -/
def raiseAtSetLoggerProvider : ExtStep → Bool
  | .set_logger_provider => false
  | _ => true

/-- Witness for C10: a concrete first call whose `set_logger_provider` call
raises. -/
theorem initE_flag_assigned_last_witness :
    (initE raiseAtSetLoggerProvider "svc" (some "http://collector:4318")
      initialState).2 = true ∧
    (initE raiseAtSetLoggerProvider "svc" (some "http://collector:4318")
      initialState).1.initialized = false :=
  ⟨rfl,
   (initE_flag_assigned_last raiseAtSetLoggerProvider "svc"
     (some "http://collector:4318") initialState rfl).1⟩

end Pondside
